import Mathlib

/-!
Shallow embedding of `libnl++/protocols/MessageDefinition.h` (Android
automotive CAN HAL netlink protocol schema layer).

Numeric netlink identifiers (`nlattrtype_t`, `nlmsgtype_t`) are embedded as
`Nat`.  Byte buffers (`Buffer<nlmsghdr>`, `Buffer<nlattr>`) are embedded as
`List Nat` of byte values.  `std::stringstream` output is embedded as the
`String` a rendering call appends.  `std::map` is embedded as an association
list looked up with `List.lookup` (first matching key wins, mirroring unique
keys of `std::map`).
-/

/-- Embedding of `AttributeDefinition::DataType` from the source header:
`enum class DataType : uint8_t \x7b Raw, Nested, String, Uint, Struct \x7d`. -/
inductive DataType : Type where
  | Raw
  | Nested
  | String
  | Uint
  | Struct
deriving DecidableEq, Repr

/-- Embedding of `MessageGenre` from the source header:
`enum class MessageGenre \x7b UNKNOWN, GET, NEW, DELETE, ACK \x7d`. -/
inductive MessageGenre : Type where
  | UNKNOWN
  | GET
  | NEW
  | DELETE
  | ACK
deriving DecidableEq, Repr

mutual

/-- Embedding of `AttributeMap`: a
`std::map<std::optional<nlattrtype_t>, AttributeDefinition>`.
The optional key `none` is the default/fallback entry. -/
inductive AttributeMap : Type where
  | mk (entries : List (Option Nat × AttributeDefinition)) : AttributeMap

/-- Embedding of
`struct AttributeDefinition \x7b std::string name; DataType dataType; std::variant<...> ops; \x7d`. -/
inductive AttributeDefinition : Type where
  | mk (name : String) (dataType : DataType) (ops : Ops) : AttributeDefinition

/-- The type of the `ops` member of `AttributeDefinition` in the source:
`std::variant<AttributeMap, ToStream>` — a two-alternative tagged union.
`ToStream` (`std::function<void(std::stringstream&, const Buffer<nlattr>)>`)
is embedded as a function from attribute payload bytes to appended text. -/
inductive Ops : Type where
  | map (m : AttributeMap) : Ops
  | custom (f : List Nat → String) : Ops

end

/-- Entries of an `AttributeMap` (underlying `std::map` contents). -/
def AttributeMap.entries : AttributeMap → List (Option Nat × AttributeDefinition)
  | .mk e => e

/-- The `name` member of an `AttributeDefinition`. -/
def AttributeDefinition.name : AttributeDefinition → String
  | .mk n _ _ => n

/-- The `dataType` member of an `AttributeDefinition`. -/
def AttributeDefinition.dataType : AttributeDefinition → DataType
  | .mk _ t _ => t

/-- The `ops` member of an `AttributeDefinition`. -/
def AttributeDefinition.ops : AttributeDefinition → Ops
  | .mk _ _ o => o

/-- The default member initializer of `ops` in the source:
`std::variant<AttributeMap, ToStream> ops = AttributeMap\x7b\x7d;` — the first
variant alternative holding an empty attribute map. -/
def Ops.defaultInit : Ops := Ops.map (AttributeMap.mk [])

/-- The default member initializer of `dataType` in the source:
`DataType dataType = DataType::Raw;`. -/
def DataType.defaultInit : DataType := DataType.Raw

/-- Aggregate construction of an `AttributeDefinition` at the public interface,
with the member default initializers of the source applied to omitted members
(`dataType = DataType::Raw`, `ops = AttributeMap\x7b\x7d`):
`make n` embeds `AttributeDefinition\x7bn\x7d`, `make n t` embeds
`AttributeDefinition\x7bn, t\x7d`, and `make n t o` embeds full member-wise
initialization. -/
def AttributeDefinition.make (name : String)
    (dataType : DataType := DataType.defaultInit)
    (ops : Ops := Ops.defaultInit) : AttributeDefinition :=
  AttributeDefinition.mk name dataType ops

/-- Modelled from the spec: `AttributeMap::operator[]` (its body lives in
`MessageDefinition.cpp`, which is not among the sources).  Per the spec,
`lookup(id)` is a total function: if `id` is explicitly registered it returns
its definition unchanged; else, if a default entry (key `std::nullopt`)
exists, it returns it unchanged; else it synthesizes and returns
`\x7bname: textual(id), dataType: Raw, ops: (default)\x7d`.  The synthesized
definition takes the member defaults of `AttributeDefinition` for the members
the spec leaves at their defaults. -/
def AttributeMap.lookup (m : AttributeMap) (id : Nat) : AttributeDefinition :=
  match m.entries.lookup (some id) with
  | some d => d
  | none =>
    match m.entries.lookup none with
    | some d => d
    | none => AttributeDefinition.make (toString id)

/-- Embedding of `MessageDescriptor::MessageDetails`:
`\x7bstd::string name; MessageGenre genre;\x7d`. -/
structure MessageDescriptor.MessageDetails : Type where
  name : String
  genre : MessageGenre
deriving DecidableEq, Repr

/-- Embedding of `MessageDescriptor`: family name, fixed header size, registered
message-details table (`std::map<nlmsgtype_t, MessageDetails>`) and the
family's attribute schema.  All members are `const` in the source. -/
structure MessageDescriptor : Type where
  mName : String
  mContentsSize : Nat
  mMessageDetails : List (Nat × MessageDescriptor.MessageDetails)
  mAttributeMap : AttributeMap

/-- Modelled from the spec: `MessageDescriptor::getContentsSize` (body in
`MessageDefinition.cpp`, not among the sources): returns `mContentsSize`. -/
def MessageDescriptor.getContentsSize (d : MessageDescriptor) : Nat :=
  d.mContentsSize

/-- Modelled from the spec: `MessageDescriptor::getMessageDetailsMap` (body in
`MessageDefinition.cpp`, not among the sources): returns `mMessageDetails`. -/
def MessageDescriptor.getMessageDetailsMap (d : MessageDescriptor) :
    List (Nat × MessageDescriptor.MessageDetails) :=
  d.mMessageDetails

/-- Modelled from the spec: `MessageDescriptor::getAttributeMap` (body in
`MessageDefinition.cpp`, not among the sources): returns `mAttributeMap`. -/
def MessageDescriptor.getAttributeMap (d : MessageDescriptor) : AttributeMap :=
  d.mAttributeMap

/-- Modelled from the spec: `MessageDescriptor::getMessageDetails(msgtype)`
(body in `MessageDefinition.cpp`, not among the sources).  Per the spec,
`resolve(msgtype)` is total: it returns the registered entry if present, else
synthesizes `\x7bname: textual(msgtype), genre: UNKNOWN\x7d`. -/
def MessageDescriptor.getMessageDetails (d : MessageDescriptor) (msgtype : Nat) :
    MessageDescriptor.MessageDetails :=
  match d.mMessageDetails.lookup msgtype with
  | some det => det
  | none => { name := toString msgtype, genre := MessageGenre.UNKNOWN }

/-- Modelled from the spec: the static overload
`MessageDescriptor::getMessageDetails(msgDescMaybe, msgtype)` (body in
`MessageDefinition.cpp`, not among the sources).  Per the spec: if no
descriptor is supplied it returns the same unknown placeholder without
touching any descriptor; otherwise it delegates to the descriptor's member
`getMessageDetails`. -/
def MessageDescriptor.getMessageDetailsOpt
    (msgDescMaybe : Option MessageDescriptor) (msgtype : Nat) :
    MessageDescriptor.MessageDetails :=
  match msgDescMaybe with
  | none => { name := toString msgtype, genre := MessageGenre.UNKNOWN }
  | some d => d.getMessageDetails msgtype

/-- A concrete native header shape `T` of a message family: its byte size
(`sizeof(T)`) and the reinterpretation of (at least) `sizeof(T)` leading
bytes of a buffer as a `T` value. -/
structure NativeHeader (τ : Type) : Type where
  byteSize : Nat
  read : List Nat → τ

/-- Modelled from the spec: the bounds-checked typed read
`hdr.data<T>().getFirst()` provided by `libnl++/Buffer.h` (not among the
sources).  Per the spec (§6): `read-first-as-T(buffer) → (success, value)`,
never raising on short input, only signaling failure via the boolean; the
bounds check fails exactly when the buffer is shorter than `sizeof(T)`. -/
def Buffer.getFirst {τ : Type} (T : NativeHeader τ) (buf : List Nat) : Bool × τ :=
  (decide (T.byteSize ≤ buf.length), T.read (buf.take T.byteSize))

/-- Embedding of `MessageDefinition<T>` from the source header: derives from
`MessageDescriptor` (field `base`), is bound to the native header shape `T`
(field `header`), and supplies the pure-virtual family rendering hook
`toStream` (embedded as the text it appends for a given header value). -/
structure MessageDefinition (τ : Type) : Type where
  base : MessageDescriptor
  header : NativeHeader τ
  toStream : τ → String

/-- The `MessageDefinition<T>` constructor from the source header:
`MessageDefinition(name, msgDet, attrTypes) : MessageDescriptor(name, msgDet, attrTypes, sizeof(T))`
— `contentsSize` is supplied automatically as `sizeof(T)`. -/
def MessageDefinition.make {τ : Type} (T : NativeHeader τ) (name : String)
    (msgDet : List (Nat × MessageDescriptor.MessageDetails))
    (attrTypes : AttributeMap) (hook : τ → String) : MessageDefinition τ :=
  { base :=
      { mName := name
        mContentsSize := T.byteSize
        mMessageDetails := msgDet
        mAttributeMap := attrTypes }
    header := T
    toStream := hook }

/-- Embedding of `MessageDefinition<T>::dataToStream` from the source header:
```
const auto& [ok, msg] = hdr.data<T>().getFirst();
if (!ok) \x7b ss << "\x7bincomplete payload\x7d"; return; \x7d
toStream(ss, msg);
```
The returned `String` is the text the call appends to the stream. -/
def MessageDefinition.dataToStream {τ : Type} (d : MessageDefinition τ)
    (buf : List Nat) : String :=
  match Buffer.getFirst d.header buf with
  | (ok, msg) => if !ok then "\x7bincomplete payload\x7d" else d.toStream msg

/-- The observer calls available on a constructed message definition.  Every
corresponding method of `MessageDescriptor` / `MessageDefinition` is declared
`const` in the source (and all data members are `const`), so each observer
leaves the object unchanged. -/
inductive DescriptorOp : Type where
  | getContentsSize
  | getMessageDetailsMap
  | getAttributeMap
  | resolveMsg (msgtype : Nat)
  | lookupAttr (id : Nat)
  | render (buf : List Nat)

/-- Run one `const` observer call: compute its observation (summarized as a
`String`) and return the — unchanged — object alongside. -/
def MessageDefinition.observe {τ : Type} (d : MessageDefinition τ) :
    DescriptorOp → String × MessageDefinition τ
  | .getContentsSize => (toString d.base.getContentsSize, d)
  | .getMessageDetailsMap => (toString (d.base.getMessageDetailsMap.map Prod.fst), d)
  | .getAttributeMap => (toString (d.base.getAttributeMap.entries.map Prod.fst), d)
  | .resolveMsg t => ((d.base.getMessageDetails t).name, d)
  | .lookupAttr i => ((d.base.getAttributeMap.lookup i).name, d)
  | .render buf => (d.dataToStream buf, d)

/-- The object resulting from a sequence of observer calls. -/
def MessageDefinition.observeAll {τ : Type} (d : MessageDefinition τ) :
    List DescriptorOp → MessageDefinition τ
  | [] => d
  | op :: ops => ((d.observe op).2).observeAll ops

/-- Sample attribute definition used in concrete witnesses (the spec's
scenario entry `1: ("FOO", String)`). -/
def fooDef : AttributeDefinition :=
  AttributeDefinition.make "FOO" DataType.String

/-- Sample default attribute definition used in concrete witnesses (the
spec's scenario entry `default: ("FALLBACK", Raw)`). -/
def fallbackDef : AttributeDefinition :=
  AttributeDefinition.make "FALLBACK" DataType.Raw

/-- Sample message descriptor used in concrete witnesses. -/
def sampleDescriptor : MessageDescriptor :=
  { mName := "sample"
    mContentsSize := 16
    mMessageDetails := [(20, { name := "RTM_NEWLINK", genre := MessageGenre.NEW })]
    mAttributeMap := AttributeMap.mk [(some 1, fooDef), (none, fallbackDef)] }

/-- Sample native-header reinterpretation used in concrete witnesses: read a
header value as the sum of its bytes. -/
def sumBytes (b : List Nat) : Nat :=
  b.foldl (fun a x => a + x) 0

/-- Each observer call is `const` in the source: its second component is the
object itself, unchanged. -/
theorem MessageDefinition.observe_snd {τ : Type} (d : MessageDefinition τ)
    (op : DescriptorOp) : (d.observe op).2 = d := by
  cases op <;> rfl

/-- A sequence of `const` observer calls leaves the object unchanged. -/
theorem MessageDefinition.observeAll_eq {τ : Type} (ops : List DescriptorOp)
    (d : MessageDefinition τ) : d.observeAll ops = d := by
  induction ops generalizing d with
  | nil => rfl
  | cons op ops ih =>
    rw [MessageDefinition.observeAll, MessageDefinition.observe_snd]
    exact ih d

/-- C1: for every `MessageDefinition<T>` (so `contentsSize = sizeof(T)`) and
every buffer shorter than `sizeof(T)` bytes, `dataToStream` writes exactly
the fixed placeholder text and nothing else, for every possible family hook
`toStream` — so the hook is never consulted. -/
theorem C1_incomplete_payload {τ : Type} (T : NativeHeader τ) (name : String)
    (msgDet : List (Nat × MessageDescriptor.MessageDetails))
    (attrTypes : AttributeMap) (buf : List Nat)
    (h : buf.length < T.byteSize) :
    ∀ hook : τ → String,
      (MessageDefinition.make T name msgDet attrTypes hook).base.getContentsSize
          = T.byteSize
      ∧ (MessageDefinition.make T name msgDet attrTypes hook).dataToStream buf
          = "\x7bincomplete payload\x7d" := by
  intro hook
  refine ⟨rfl, ?_⟩
  have hnot : ¬ T.byteSize ≤ buf.length := Nat.not_le.mpr h
  simp [MessageDefinition.make, MessageDefinition.dataToStream, Buffer.getFirst,
    hnot]

theorem C1_incomplete_payload_witness :
    ([7, 7] : List Nat).length < 4
    ∧ (MessageDefinition.make ⟨4, sumBytes⟩ "fam" [] (AttributeMap.mk [])
        (fun n : Nat => toString n)).dataToStream [7, 7]
        = "\x7bincomplete payload\x7d" :=
  ⟨by decide,
    (C1_incomplete_payload ⟨4, sumBytes⟩ "fam" [] (AttributeMap.mk []) [7, 7]
      (by decide) (fun n : Nat => toString n)).2⟩

/-- C2 counterexample: the claim says the synthesized fallback definition has
`ops: None`, a case distinct from a nested map; but in the source `ops` is
`std::variant<AttributeMap, ToStream>` — there is no `None` alternative, and
the synthesized definition's `ops` is the first variant alternative holding
an empty `AttributeMap`. -/
theorem C2_ops_none_counterexample :
    ((AttributeMap.mk []).lookup 5).ops = Ops.map (AttributeMap.mk []) :=
  rfl

/-- C2 (amended): for every `AttributeMap` with no default entry and every
unregistered `id`, `operator[]` returns the synthesized definition
`\x7bname: textual(id), dataType: Raw, ops: empty nested AttributeMap (the
member default)\x7d`; lookup is total by construction. -/
theorem C2_fallback_synthesis (m : AttributeMap) (id : Nat)
    (h1 : m.entries.lookup (some id) = none)
    (h2 : m.entries.lookup none = none) :
    m.lookup id
      = AttributeDefinition.mk (toString id) DataType.Raw
          (Ops.map (AttributeMap.mk [])) := by
  simp [AttributeMap.lookup, h1, h2, AttributeDefinition.make,
    DataType.defaultInit, Ops.defaultInit]

theorem C2_fallback_synthesis_witness :
    (AttributeMap.mk [(some 1, fooDef)]).entries.lookup (some 99) = none
    ∧ (AttributeMap.mk [(some 1, fooDef)]).entries.lookup none = none
    ∧ (AttributeMap.mk [(some 1, fooDef)]).lookup 99
        = AttributeDefinition.mk (toString 99) DataType.Raw
            (Ops.map (AttributeMap.mk [])) :=
  ⟨rfl, rfl, C2_fallback_synthesis (AttributeMap.mk [(some 1, fooDef)]) 99 rfl rfl⟩

/-- C3 counterexample: an `AttributeDefinition` constructed with no custom
behavior (only a name supplied) has its `ops` silently defaulted to an empty
nested `AttributeMap` — the claim says this never happens. -/
theorem C3_ops_counterexample :
    (AttributeDefinition.make "x").ops = Ops.map (AttributeMap.mk []) :=
  rfl

/-- C3 (amended): the `ops` field is a TWO-way tagged union — every value is
either a nested `AttributeMap` or a custom formatter; there is no third
"no override" case, and absence of custom behavior is represented by the
member default, an empty nested `AttributeMap`. -/
theorem C3_ops_two_alternatives :
    (∀ o : Ops, (∃ m, o = Ops.map m) ∨ (∃ f, o = Ops.custom f))
    ∧ (∀ s : String, (AttributeDefinition.make s).ops = Ops.defaultInit)
    ∧ Ops.defaultInit = Ops.map (AttributeMap.mk []) := by
  refine ⟨fun o => ?_, fun s => rfl, rfl⟩
  cases o with
  | map m => exact Or.inl ⟨m, rfl⟩
  | custom f => exact Or.inr ⟨f, rfl⟩

/-- C4: `getMessageDetails` is total — an unregistered `msgtype` yields the
synthesized placeholder `\x7bname: textual(msgtype), genre: UNKNOWN\x7d`, and a
registered `msgtype` yields the registered entry unchanged. -/
theorem C4_resolve_total (d : MessageDescriptor) (t : Nat) :
    (d.mMessageDetails.lookup t = none →
      d.getMessageDetails t = { name := toString t, genre := MessageGenre.UNKNOWN })
    ∧ ∀ det : MessageDescriptor.MessageDetails,
        d.mMessageDetails.lookup t = some det → d.getMessageDetails t = det := by
  constructor
  · intro h
    simp [MessageDescriptor.getMessageDetails, h]
  · intro det h
    simp [MessageDescriptor.getMessageDetails, h]

theorem C4_resolve_total_witness :
    sampleDescriptor.mMessageDetails.lookup 7 = none
    ∧ sampleDescriptor.getMessageDetails 7
        = { name := toString 7, genre := MessageGenre.UNKNOWN }
    ∧ sampleDescriptor.mMessageDetails.lookup 20
        = some { name := "RTM_NEWLINK", genre := MessageGenre.NEW }
    ∧ sampleDescriptor.getMessageDetails 20
        = { name := "RTM_NEWLINK", genre := MessageGenre.NEW } :=
  ⟨rfl, (C4_resolve_total sampleDescriptor 7).1 rfl, rfl,
    (C4_resolve_total sampleDescriptor 20).2
      { name := "RTM_NEWLINK", genre := MessageGenre.NEW } rfl⟩

/-- C5: the static overload with no descriptor supplied returns the unknown
placeholder (its defining clause mentions no descriptor at all), and with a
descriptor supplied it returns exactly what that descriptor's member
`getMessageDetails` returns. -/
theorem C5_static_resolve (t : Nat) :
    MessageDescriptor.getMessageDetailsOpt none t
      = { name := toString t, genre := MessageGenre.UNKNOWN }
    ∧ ∀ d : MessageDescriptor,
        MessageDescriptor.getMessageDetailsOpt (some d) t
          = d.getMessageDetails t :=
  ⟨rfl, fun _ => rfl⟩

/-- C6: for every `AttributeMap` with a default (`std::nullopt`-keyed) entry
`D` and every identifier not explicitly registered, `operator[]` returns
exactly `D`, unchanged. -/
theorem C6_default_entry (m : AttributeMap) (id : Nat) (D : AttributeDefinition)
    (h1 : m.entries.lookup (some id) = none)
    (h2 : m.entries.lookup none = some D) :
    m.lookup id = D := by
  simp [AttributeMap.lookup, h1, h2]

theorem C6_default_entry_witness :
    (AttributeMap.mk [(some 1, fooDef), (none, fallbackDef)]).entries.lookup
        (some 99) = none
    ∧ (AttributeMap.mk [(some 1, fooDef), (none, fallbackDef)]).entries.lookup
        none = some fallbackDef
    ∧ (AttributeMap.mk [(some 1, fooDef), (none, fallbackDef)]).lookup 99
        = fallbackDef
    ∧ ((AttributeMap.mk [(some 1, fooDef), (none, fallbackDef)]).lookup 99).name
        = "FALLBACK" :=
  ⟨rfl, rfl,
    C6_default_entry (AttributeMap.mk [(some 1, fooDef), (none, fallbackDef)])
      99 fallbackDef rfl rfl,
    rfl⟩

/-- C7: for every `(id, def)` pair registered in an `AttributeMap`,
`operator[]` at `id` returns the registered definition itself, unchanged. -/
theorem C7_registered_entry (m : AttributeMap) (id : Nat)
    (d : AttributeDefinition)
    (h : m.entries.lookup (some id) = some d) :
    m.lookup id = d := by
  simp [AttributeMap.lookup, h]

theorem C7_registered_entry_witness :
    (AttributeMap.mk [(some 1, fooDef), (none, fallbackDef)]).entries.lookup
        (some 1) = some fooDef
    ∧ (AttributeMap.mk [(some 1, fooDef), (none, fallbackDef)]).lookup 1 = fooDef
    ∧ ((AttributeMap.mk [(some 1, fooDef), (none, fallbackDef)]).lookup 1).name
        = "FOO" :=
  ⟨rfl,
    C7_registered_entry (AttributeMap.mk [(some 1, fooDef), (none, fallbackDef)])
      1 fooDef rfl,
    rfl⟩

/-- C8: the `MessageDefinition<T>` constructor supplies `contentsSize` as
`sizeof(T)` automatically, `getContentsSize` returns it, and it is unchanged
after any sequence of (`const`) operations on the object. -/
theorem C8_contents_size {τ : Type} (T : NativeHeader τ) (name : String)
    (msgDet : List (Nat × MessageDescriptor.MessageDetails))
    (attrTypes : AttributeMap) (hook : τ → String) :
    (MessageDefinition.make T name msgDet attrTypes hook).base.getContentsSize
        = T.byteSize
    ∧ ∀ ops : List DescriptorOp,
        ((MessageDefinition.make T name msgDet attrTypes hook).observeAll
            ops).base.getContentsSize = T.byteSize := by
  refine ⟨rfl, fun ops => ?_⟩
  rw [MessageDefinition.observeAll_eq]
  rfl

/-- C9: for every `MessageDefinition<T>` and buffer of length at least
`sizeof(T) = contentsSize`, `dataToStream` delegates to the family hook
applied to the first `sizeof(T)` bytes reinterpreted as `T`; and the output
is deterministic in the buffer contents. -/
theorem C9_delegation {τ : Type} (T : NativeHeader τ) (name : String)
    (msgDet : List (Nat × MessageDescriptor.MessageDetails))
    (attrTypes : AttributeMap) (hook : τ → String) (buf buf2 : List Nat)
    (h : T.byteSize ≤ buf.length) :
    (MessageDefinition.make T name msgDet attrTypes hook).dataToStream buf
      = hook (T.read (buf.take T.byteSize))
    ∧ (buf = buf2 →
        (MessageDefinition.make T name msgDet attrTypes hook).dataToStream buf
          = (MessageDefinition.make T name msgDet attrTypes hook).dataToStream
              buf2) := by
  constructor
  · simp [MessageDefinition.make, MessageDefinition.dataToStream,
      Buffer.getFirst, h]
  · intro e
    rw [e]

theorem C9_delegation_witness :
    2 ≤ ([1, 2, 3] : List Nat).length
    ∧ (MessageDefinition.make ⟨2, sumBytes⟩ "fam" [] (AttributeMap.mk [])
        (fun n : Nat => toString n)).dataToStream [1, 2, 3]
        = toString (sumBytes (([1, 2, 3] : List Nat).take 2)) :=
  ⟨by decide,
    (C9_delegation ⟨2, sumBytes⟩ "fam" [] (AttributeMap.mk [])
      (fun n : Nat => toString n) [1, 2, 3] [1, 2, 3] (by decide)).1⟩

/-- C10: `DataType::Raw` is the declared default of the `dataType` member at
the construction interface: any `AttributeDefinition` constructed without an
explicit data type has `dataType = Raw`, and in particular the synthesized
fallback definition does. -/
theorem C10_raw_default :
    (∀ s : String, (AttributeDefinition.make s).dataType = DataType.Raw)
    ∧ DataType.defaultInit = DataType.Raw
    ∧ (∀ id : Nat, ((AttributeMap.mk []).lookup id).dataType = DataType.Raw) :=
  ⟨fun _ => rfl, rfl, fun _ => rfl⟩
